import Mathlib

/-!
Verification of the Tacheo task manager (src/tacheo.py), a Flask app over a
single SQLite `tasks` table.  We embed the task rows and the five task API
routes (`get_tasks`, `get_all_tasks`, `create_task`, `update_task`,
`hard_delete_single_task`, `clear_trash`) as pure functions over a list of
rows, plus the browser-side status operations (`toggleTask`, `deleteTask`,
`restoreTask`) that drive the status transitions from the UI templates.

Modelling conventions:
* The `tasks` table is a `List Task`; SQL `WHERE` clauses become `List.filter`,
  `UPDATE ... WHERE` becomes `List.map` over matching rows, `DELETE ... WHERE`
  becomes `List.filter` on the negated condition.
* `due_date` is a `TEXT` column holding dates `YYYY-MM-DD` (or NULL); SQL
  compares such strings lexicographically, which agrees with the numeric
  order of their digit strings, so we model a date as its `Nat` encoding
  `YYYYMMDD` (an order isomorphism on valid dates) and NULL as `none`.
  The `COALESCE(due_date, "9999-12-31")` sentinel becomes the key `99991231`.
* `created_at` is a `TIMESTAMP DEFAULT CURRENT_TIMESTAMP` text; timestamps
  compare lexicographically, modelled as `Nat`.
* `ORDER BY k1 ASC, k2 DESC` is modelled as a stable insertion sort by the
  corresponding lexicographic boolean comparison.
* JSON request payloads are records of `Option` fields (`none` = key absent);
  `request.json` bodies that are missing keys raise `KeyError` (an HTTP 500),
  modelled by returning `none` from `update_task`.
-/

namespace Tacheo

/-- A row of the `tasks` table, per the `CREATE TABLE tasks` schema in
`init_db` of src/tacheo.py. -/
structure Task where
  id : Nat
  title : String
  description : String
  due_date : Option Nat
  priority : String
  category : String
  status : String
  created_at : Nat
  user_id : Nat
deriving DecidableEq

/-- The sort key `COALESCE(due_date, "9999-12-31")` used by the `ORDER BY`
clause of `get_tasks` and `get_all_tasks`. -/
def dueKey (t : Task) : Nat :=
  t.due_date.getD 99991231

/-- The row comparison realised by
`ORDER BY COALESCE(due_date, "9999-12-31") ASC, created_at DESC`. -/
def taskLE (a b : Task) : Bool :=
  decide (dueKey a < dueKey b) ||
    (decide (dueKey a = dueKey b) && decide (b.created_at ≤ a.created_at))

/-- `taskLE` as a relation, for use with the sorting library. -/
def taskRel (a b : Task) : Prop := taskLE a b = true

instance : DecidableRel taskRel := fun a b => instDecidableEqBool (taskLE a b) true

theorem taskRel_iff {a b : Task} :
    taskRel a b ↔
      dueKey a < dueKey b ∨ (dueKey a = dueKey b ∧ b.created_at ≤ a.created_at) := by
  simp [taskRel, taskLE]

instance : IsTotal Task taskRel :=
  ⟨fun a b => by
    rw [taskRel_iff, taskRel_iff]
    omega⟩

instance : IsTrans Task taskRel :=
  ⟨fun a b c hab hbc => by
    rw [taskRel_iff] at hab hbc ⊢
    omega⟩

/-- The `ORDER BY` step of the listing queries: a stable sort by `taskLE`
(SQL leaves the order of fully tied rows unspecified; the stable sort is one
realisation). -/
def sortTasks (l : List Task) : List Task :=
  List.insertionSort taskRel l

/-- The status condition built by the `if/elif/else` chain on
`status_filter` in `get_tasks` (src/tacheo.py lines 3543-3550): the three
recognised values select their own status, every other value (including
`all`) selects `status != "deleted"`. -/
def statusCond (status_filter : String) (t : Task) : Bool :=
  if status_filter == "deleted" then t.status == "deleted"
  else if status_filter == "pending" then t.status == "pending"
  else if status_filter == "completed" then t.status == "completed"
  else t.status != "deleted"

/-- The full `WHERE` clause assembled by `get_tasks`: owner scoping plus the
status condition plus the optional category and priority equalities. -/
def rowMatches (user_id : Nat) (sf cf pf : String) (t : Task) : Bool :=
  t.user_id == user_id && statusCond sf t &&
    (cf == "all" || t.category == cf) &&
    (pf == "all" || t.priority == pf)

/-- Route `GET /api/tasks` (`get_tasks`): filter the rows of the owner by the three
filters, then sort. -/
def get_tasks (db : List Task) (user_id : Nat) (sf cf pf : String) : List Task :=
  sortTasks (db.filter (rowMatches user_id sf cf pf))

/-- Route `GET /api/alltasks` (`get_all_tasks`): every row of the owner,
deleted included, with the same `ORDER BY`. -/
def get_all_tasks (db : List Task) (user_id : Nat) : List Task :=
  sortTasks (db.filter (fun t => t.user_id == user_id))

/-- JSON body of `POST /api/tasks`; `none` means the key is absent from the
payload. -/
structure CreatePayload where
  title : Option String
  description : Option String
  due_date : Option Nat
  priority : Option String
  category : Option String
  status : Option String
deriving DecidableEq

/-- Route `POST /api/tasks` (`create_task`): rejected with HTTP 400
(`"Données invalides"`) iff the payload lacks a `title` key; otherwise the
row is inserted with `data.get` defaults `description=""`,
`priority="important"`, `category="personnel"`, `status="pending"`, the
calling account as `user_id`, the next rowid and the current timestamp. -/
def create_task (db : List Task) (nextId now user_id : Nat) (p : CreatePayload) :
    Except String (List Task) :=
  match p.title with
  | none => .error "Données invalides"
  | some title =>
      .ok (db ++ [{
        id := nextId,
        title := title,
        description := p.description.getD "",
        due_date := p.due_date,
        priority := p.priority.getD "important",
        category := p.category.getD "personnel",
        status := p.status.getD "pending",
        created_at := now,
        user_id := user_id }])

/-- JSON body of `PUT /api/tasks/<id>`; `none` means the key is absent.
`due_date` may be present with a JSON null (`some none`). -/
structure UpdatePayload where
  title : Option String
  description : Option String
  due_date : Option (Option Nat)
  priority : Option String
  category : Option String
  status : Option String
deriving DecidableEq

/-- The dispatch test `"status" in data and len(data) == 1` of `update_task`
(unrecognised extra keys are not modelled, so `len(data) == 1` means every
other known key is absent). -/
def statusOnly (p : UpdatePayload) : Bool :=
  p.status.isSome && p.title.isNone && p.description.isNone &&
    p.due_date.isNone && p.priority.isNone && p.category.isNone

/-- The SQL `UPDATE tasks SET status = ? WHERE id = ? AND user_id = ?`. -/
def applyStatus (s : String) (user_id task_id : Nat) (db : List Task) : List Task :=
  db.map fun t =>
    if t.id == task_id && t.user_id == user_id then { t with status := s } else t

/-- Route `PUT /api/tasks/<id>` (`update_task`): a status-only payload runs
the status `UPDATE`; any other payload runs the five-field `UPDATE` and
raises `KeyError` (HTTP 500, modelled `none`) when one of the five keys is
absent.  Both `UPDATE`s silently match zero rows when the id is absent or
owned by another account, and the route answers the constant success marker either
way. -/
def update_task (db : List Task) (user_id task_id : Nat) (p : UpdatePayload) :
    Option (List Task) :=
  if statusOnly p then
    some (applyStatus (p.status.getD "") user_id task_id db)
  else
    match p.title, p.description, p.due_date, p.priority, p.category with
    | some ti, some de, some dd, some pr, some ca =>
        some (db.map fun t =>
          if t.id == task_id && t.user_id == user_id then
            { t with title := ti, description := de, due_date := dd,
                     priority := pr, category := ca }
          else t)
    | _, _, _, _, _ => none

/-- Route `DELETE /api/tasks/<id>` (`hard_delete_single_task`):
`DELETE FROM tasks WHERE id = ? AND user_id = ?`, then the constant success marker
regardless of how many rows matched. -/
def hard_delete_single_task (db : List Task) (user_id task_id : Nat) : List Task :=
  db.filter fun t => !(t.id == task_id && t.user_id == user_id)

/-- Route `DELETE /api/tasks/clear_trash` (`clear_trash`):
`DELETE FROM tasks WHERE status = "deleted" AND user_id = ?`. -/
def clear_trash (db : List Task) (user_id : Nat) : List Task :=
  db.filter fun t => !(t.status == "deleted" && t.user_id == user_id)

/-- The HTTP response body of `clear_trash`: the constant
jsonify of the success marker, independent of the store and of how many rows
were deleted. -/
def clear_trash_response (_db : List Task) (_user_id : Nat) : List (String × Bool) :=
  [("success", true)]

/-- Number of rows the trash purge removes for an owner. -/
def trashCount (db : List Task) (user_id : Nat) : Nat :=
  (db.filter fun t => t.status == "deleted" && t.user_id == user_id).length

/-- The rows of `db` owned by account `y` (in store order). -/
def ownedBy (db : List Task) (y : Nat) : List Task :=
  db.filter fun t => t.user_id == y

/-- The one-key body carrying only the status key `s` the UI sends for status changes. -/
def setStatusPayload (s : String) : UpdatePayload :=
  { title := none, description := none, due_date := none, priority := none,
    category := none, status := some s }

/-- The browser-side lookup `allTasks.find(t => t.id === id)`, where
`allTasks` is the listing of the owner from `/api/alltasks`. -/
def findTask (db : List Task) (user_id id : Nat) : Option Task :=
  (db.filter fun t => t.user_id == user_id).find? fun t => t.id == id

/-- UI `toggleTask` (src/tacheo.py lines 2289-2312): no request when the task
is missing or deleted; otherwise a PUT of the one-key status body, completed or pending, flipping
between pending and completed. -/
def toggleTask (db : List Task) (user_id id : Nat) : List Task :=
  match findTask db user_id id with
  | none => db
  | some task =>
      if task.status == "deleted" then db
      else
        let newStatus := if task.status == "completed" then "pending" else "completed"
        (update_task db user_id id (setStatusPayload newStatus)).getD db

/-- UI `deleteTask` (lines 2314-2332): a PUT of the one-key status body `deleted` (move to
trash). -/
def deleteTask (db : List Task) (user_id id : Nat) : List Task :=
  (update_task db user_id id (setStatusPayload "deleted")).getD db

/-- UI `restoreTask` (lines 2364-2381): a PUT of the one-key status body `pending` — restore
always sends `pending`. -/
def restoreTask (db : List Task) (user_id id : Nat) : List Task :=
  (update_task db user_id id (setStatusPayload "pending")).getD db

/-! Concrete fixtures used to instantiate the theorems below. -/

/-- A pending task of account 1 with a due date. -/
def demoPending : Task :=
  ⟨1, "p", "", some 20260101, "important", "personnel", "pending", 5, 1⟩

/-- A completed task of account 1 without a due date. -/
def demoCompleted : Task :=
  ⟨2, "c", "", none, "urgent", "travail", "completed", 6, 1⟩

/-- A soft-deleted task of account 1. -/
def demoDeleted : Task :=
  ⟨3, "d", "", some 20260301, "standard", "sport", "deleted", 7, 1⟩

/-- A task of account 2 reusing id 1 (same id value under another owner). -/
def demoOther : Task :=
  ⟨1, "o", "", none, "important", "personnel", "pending", 8, 2⟩

/-- A small store mixing owners and statuses. -/
def demoDb : List Task := [demoPending, demoCompleted, demoDeleted, demoOther]

/-- A task with no due date and the later creation timestamp. -/
def taskNoDue : Task :=
  ⟨1, "a", "", none, "important", "personnel", "pending", 2, 1⟩

/-- A task whose due date is the sentinel date `9999-12-31` itself, created
earlier than `taskNoDue`. -/
def taskMaxDue : Task :=
  ⟨2, "b", "", some 99991231, "important", "personnel", "pending", 1, 1⟩

/-- Create payload carrying an explicit `status` key. -/
def createStatusPayload : CreatePayload :=
  { title := some "x", description := none, due_date := none,
    priority := none, category := none, status := some "completed" }

/-- Create payload whose `title` is the empty string. -/
def emptyTitlePayload : CreatePayload :=
  { title := some "", description := none, due_date := none,
    priority := none, category := none, status := none }

/-- Create payload with no `title` key. -/
def noTitlePayload : CreatePayload :=
  { title := none, description := none, due_date := none,
    priority := none, category := none, status := none }

/-- A full five-field update payload (no `status` key, `due_date` null). -/
def fullUpdatePayload : UpdatePayload :=
  { title := some "t2", description := some "d2", due_date := some none,
    priority := some "urgent", category := some "travail", status := none }

/-- The row `create_task` inserts when the payload title is `s`: the
`data.get` defaults of the `INSERT` statement applied to payload `p`. -/
def createdRow (nextId now u : Nat) (p : CreatePayload) (s : String) : Task :=
  { id := nextId, title := s, description := p.description.getD "",
    due_date := p.due_date, priority := p.priority.getD "important",
    category := p.category.getD "personnel",
    status := p.status.getD "pending", created_at := now, user_id := u }

/-- The row stored for `emptyTitlePayload` by `create_task [] 7 10 1`. -/
def storedEmptyTitleRow : Task :=
  ⟨7, "", "", none, "important", "personnel", "pending", 10, 1⟩

/-- The row stored for `createStatusPayload` by `create_task [] 7 10 1`. -/
def storedCompletedRow : Task :=
  ⟨7, "x", "", none, "important", "personnel", "completed", 10, 1⟩

/-! Helper lemmas about the listing pipeline. -/

theorem mem_sortTasks {t : Task} {l : List Task} : t ∈ sortTasks l ↔ t ∈ l :=
  (List.perm_insertionSort taskRel l).mem_iff

theorem sorted_sortTasks (l : List Task) : List.Sorted taskRel (sortTasks l) :=
  List.sorted_insertionSort taskRel l

theorem mem_get_tasks {db : List Task} {u : Nat} {sf cf pf : String} {t : Task} :
    t ∈ get_tasks db u sf cf pf ↔ t ∈ db ∧ rowMatches u sf cf pf t = true := by
  simp [get_tasks, mem_sortTasks, List.mem_filter]

theorem rowMatches_iff {u : Nat} {sf cf pf : String} {t : Task} :
    rowMatches u sf cf pf t = true ↔
      t.user_id = u ∧ statusCond sf t = true ∧
        (cf = "all" ∨ t.category = cf) ∧ (pf = "all" ∨ t.priority = pf) := by
  simp [rowMatches, and_assoc]

theorem statusCond_other {sf : String} (h1 : sf ≠ "deleted") (h2 : sf ≠ "pending")
    (h3 : sf ≠ "completed") (t : Task) : statusCond sf t = (t.status != "deleted") := by
  simp [statusCond, h1, h2, h3]

theorem statusCond_deleted (t : Task) : statusCond "deleted" t = (t.status == "deleted") :=
  rfl

theorem statusCond_pending (t : Task) : statusCond "pending" t = (t.status == "pending") :=
  rfl

theorem statusCond_completed (t : Task) :
    statusCond "completed" t = (t.status == "completed") :=
  rfl

/-- Claim C1: with `status_filter` `all`, `List` returns only tasks whose
status is `pending` or `completed` and never a `deleted` one (for every
category/priority filter); with `deleted` it returns only `deleted` tasks;
with `pending` (resp. `completed`) it returns exactly the pending
(resp. completed) tasks.  Stores are assumed to satisfy the data-model
invariant that every status is one of the three values. -/
theorem C1_status_filter (db : List Task) (u : Nat) (cf pf : String)
    (hinv : ∀ t ∈ db, t.status = "pending" ∨ t.status = "completed" ∨ t.status = "deleted") :
    (∀ t ∈ get_tasks db u "all" cf pf,
        (t.status = "pending" ∨ t.status = "completed") ∧ t.status ≠ "deleted")
    ∧ (∀ t ∈ get_tasks db u "deleted" cf pf, t.status = "deleted")
    ∧ (∀ t, t ∈ get_tasks db u "pending" "all" "all" ↔
        t ∈ db ∧ t.user_id = u ∧ t.status = "pending")
    ∧ (∀ t, t ∈ get_tasks db u "completed" "all" "all" ↔
        t ∈ db ∧ t.user_id = u ∧ t.status = "completed") := by
  refine ⟨?_, ?_, ?_, ?_⟩
  · intro t ht
    rw [mem_get_tasks, rowMatches_iff] at ht
    obtain ⟨hmem, -, hstat, -, -⟩ := ht
    rw [statusCond_other (by decide) (by decide) (by decide)] at hstat
    have hne : t.status ≠ "deleted" := by simpa using hstat
    rcases hinv t hmem with h | h | h
    · exact ⟨Or.inl h, hne⟩
    · exact ⟨Or.inr h, hne⟩
    · exact absurd h hne
  · intro t ht
    rw [mem_get_tasks, rowMatches_iff] at ht
    obtain ⟨-, -, hstat, -, -⟩ := ht
    rw [statusCond_deleted] at hstat
    simpa using hstat
  · intro t
    rw [mem_get_tasks, rowMatches_iff, statusCond_pending]
    simp
  · intro t
    rw [mem_get_tasks, rowMatches_iff, statusCond_completed]
    simp

/-- Witness for C1: the demo pending task of account 1 is listed by the
`pending` filter. -/
theorem C1_status_filter_witness :
    demoPending ∈ get_tasks demoDb 1 "pending" "all" "all" :=
  ((C1_status_filter demoDb 1 "all" "all" (by decide)).2.2.1 demoPending).mpr
    ⟨by decide, rfl, rfl⟩

/-- Claim C8: the three filters compose conjunctively — a task appears in the
listing iff it is in the store, is owned by the caller, satisfies the status
condition, and matches the category and priority filters (`all` = no
restriction). -/
theorem C8_conjunctive_filters (db : List Task) (u : Nat) (sf cf pf : String) (t : Task) :
    t ∈ get_tasks db u sf cf pf ↔
      t ∈ db ∧ t.user_id = u ∧ statusCond sf t = true ∧
        (cf = "all" ∨ t.category = cf) ∧ (pf = "all" ∨ t.priority = pf) := by
  rw [mem_get_tasks, rowMatches_iff]

/-- Witness for C8 at a concrete store, filters and task. -/
theorem C8_conjunctive_filters_witness :
    demoCompleted ∈ get_tasks demoDb 1 "all" "travail" "urgent" :=
  (C8_conjunctive_filters demoDb 1 "all" "travail" "urgent" demoCompleted).mpr
    ⟨by decide, rfl, rfl, Or.inr rfl, Or.inr rfl⟩

/-- Claim C10: any `status_filter` outside the three recognised values falls
into the `else` branch of `get_tasks` and behaves exactly like `all`. -/
theorem C10_unrecognized_filter (db : List Task) (u : Nat) (cf pf sf : String)
    (h1 : sf ≠ "pending") (h2 : sf ≠ "completed") (h3 : sf ≠ "deleted") :
    get_tasks db u sf cf pf = get_tasks db u "all" cf pf := by
  unfold get_tasks
  congr 1
  apply List.filter_congr
  intro t _
  unfold rowMatches
  rw [statusCond_other h3 h1 h2,
    statusCond_other (by decide) (by decide) (by decide)]

/-- Witness for C10: the unrecognized filter value `banana` lists the same
tasks as `all`. -/
theorem C10_unrecognized_filter_witness :
    get_tasks demoDb 1 "banana" "all" "all" = get_tasks demoDb 1 "all" "all" "all" :=
  C10_unrecognized_filter demoDb 1 "all" "all" "banana"
    (by decide) (by decide) (by decide)

/-- In a list sorted by `taskRel`, a row with a strictly smaller due-date key,
or an equal key and a strictly larger creation timestamp, sits strictly
earlier. -/
theorem sorted_key_position {l : List Task} (h : List.Sorted taskRel l)
    (i j : Fin l.length)
    (hk : dueKey (l.get i) < dueKey (l.get j) ∨
        (dueKey (l.get i) = dueKey (l.get j) ∧ (l.get j).created_at < (l.get i).created_at)) :
    (i : Nat) < (j : Nat) := by
  rcases Nat.lt_trichotomy (i : Nat) (j : Nat) with hij | hij | hij
  · exact hij
  · exfalso
    have hij' : i = j := Fin.ext hij
    subst hij'
    omega
  · exfalso
    have hr := h.rel_get_of_lt (show j < i from hij)
    rw [taskRel_iff] at hr
    omega

/-- Claim C2 (amended): listings are sorted by the key
`COALESCE(due_date, "9999-12-31")` ascending, then `created_at` descending:
if the key of A is smaller than the key of B, A appears first; a task with an absent due
date appears after every task whose due date is earlier than `9999-12-31`
(but can precede one whose due date is exactly the sentinel `9999-12-31`);
among equal keys the higher `created_at` appears first; priority plays no
role in the comparison. -/
theorem C2_sort_order (db : List Task) (u : Nat) (sf cf pf : String)
    (l : List Task)
    (hl : l = get_tasks db u sf cf pf ∨ l = get_all_tasks db u) :
    (∀ i j : Fin l.length, ∀ da dbb : Nat, (l.get i).due_date = some da →
        (l.get j).due_date = some dbb → da < dbb → (i : Nat) < (j : Nat))
    ∧ (∀ i j : Fin l.length, (l.get i).due_date = none →
        ∀ d : Nat, (l.get j).due_date = some d → d < 99991231 → (j : Nat) < (i : Nat))
    ∧ (∀ i j : Fin l.length, dueKey (l.get i) = dueKey (l.get j) →
        (l.get j).created_at < (l.get i).created_at → (i : Nat) < (j : Nat))
    ∧ (∀ a b : Task, ∀ p q : String,
        taskLE { a with priority := p } { b with priority := q } = taskLE a b) := by
  have hs : List.Sorted taskRel l := by
    rcases hl with h | h <;> subst h
    · exact sorted_sortTasks _
    · exact sorted_sortTasks _
  refine ⟨?_, ?_, ?_, ?_⟩
  · intro i j da dbb hi hj hlt
    refine sorted_key_position hs i j (Or.inl ?_)
    simp only [dueKey, hi, hj, Option.getD_some]
    exact hlt
  · intro i j hi d hj hd
    refine sorted_key_position hs j i (Or.inl ?_)
    simp only [dueKey, hi, hj, Option.getD_some, Option.getD_none]
    exact hd
  · intro i j heq hc
    exact sorted_key_position hs i j (Or.inr ⟨heq, hc⟩)
  · intro a b p q
    rfl

/-- Witness for C2: the priority clause at concrete tasks of the demo
listing. -/
theorem C2_sort_order_witness :
    taskLE { demoPending with priority := "urgent" }
        { demoCompleted with priority := "standard" }
      = taskLE demoPending demoCompleted :=
  (C2_sort_order demoDb 1 "all" "all" "all" (get_tasks demoDb 1 "all" "all" "all")
    (Or.inl rfl)).2.2.2 demoPending demoCompleted "urgent" "standard"

/-- Claim C2 (counterexample): because absent due dates are coalesced to the
sentinel `9999-12-31`, a task with no due date but a later `created_at` is
listed before a task whose due date is exactly `9999-12-31` — so an
absent-due-date task does not appear after every task with a due date. -/
theorem C2_counterexample :
    get_tasks [taskNoDue, taskMaxDue] 1 "all" "all" "all" = [taskNoDue, taskMaxDue]
    ∧ taskNoDue.due_date = none
    ∧ taskMaxDue.due_date = some 99991231 := by
  refine ⟨?_, rfl, rfl⟩
  decide

/-- Claim C3 (amended): every successful Create appends exactly one row whose
owner is the calling account; its status is the payload `status` value when
that key is present (the UI of the app itself always sends `pending`) and defaults to
`pending` when the key is absent. -/
theorem C3_create_owner_status (db : List Task) (nextId now u : Nat) (p : CreatePayload)
    (db' : List Task) (h : create_task db nextId now u p = .ok db') :
    db'.dropLast = db
    ∧ db'.getLast?.map Task.user_id = some u
    ∧ db'.getLast?.map Task.status = some (p.status.getD "pending")
    ∧ (p.status = none → db'.getLast?.map Task.status = some "pending") := by
  rcases hp : p.title with _ | s
  · simp [create_task, hp] at h
  · simp only [create_task, hp] at h
    have hdb : db ++ [createdRow nextId now u p s] = db' := by
      simpa [createdRow] using h
    subst hdb
    refine ⟨List.dropLast_concat, ?_, ?_, ?_⟩
    · rw [List.getLast?_concat]; rfl
    · rw [List.getLast?_concat]; rfl
    · intro hs
      rw [List.getLast?_concat]
      simp [createdRow, hs]

/-- Witness for C3 at a concrete create call with no `status` key. -/
theorem C3_create_owner_status_witness :
    create_task [] 7 10 1 emptyTitlePayload = Except.ok [storedEmptyTitleRow]
    ∧ [storedEmptyTitleRow].getLast?.map Task.user_id = some 1 :=
  ⟨rfl, (C3_create_owner_status [] 7 10 1 emptyTitlePayload _ rfl).2.1⟩

/-- Claim C3 (counterexample): `create_task` stores
`data.get("status", "pending")`, so a payload carrying `status: completed`
makes the newly stored task `completed`, not `pending`. -/
theorem C3_counterexample :
    create_task [] 7 10 1 createStatusPayload = .ok [storedCompletedRow]
    ∧ storedCompletedRow.status = "completed"
    ∧ ("completed" : String) ≠ "pending" := ⟨rfl, rfl, by decide⟩

/-- A conditional per-row update whose condition matches no row of the store
is the identity. -/
theorem map_match_noop (g : Task → Task) (db : List Task) (u id : Nat)
    (hcond : ∀ t ∈ db, (t.id == id && t.user_id == u) = false) :
    (db.map fun t => if t.id == id && t.user_id == u then g t else t) = db := by
  induction db with
  | nil => rfl
  | cons t ts ih =>
      have h1 := hcond t (List.mem_cons_self t ts)
      have h2 : ∀ x ∈ ts, (x.id == id && x.user_id == u) = false :=
        fun x hx => hcond x (List.mem_cons_of_mem t hx)
      simp only [List.map_cons, h1, Bool.false_eq_true, if_false, ih h2]

/-- Every successful `update_task` run is a conditional per-row map keyed by
id and owner, and the per-row update never changes the owner column. -/
theorem update_task_some {db db' : List Task} {u id : Nat} {p : UpdatePayload}
    (h : update_task db u id p = some db') :
    ∃ g : Task → Task, (∀ t : Task, (g t).user_id = t.user_id) ∧
      db' = db.map fun t => if t.id == id && t.user_id == u then g t else t := by
  unfold update_task at h
  by_cases hso : statusOnly p = true
  · rw [if_pos hso] at h
    simp only [Option.some.injEq] at h
    refine ⟨_, ?_, h.symm⟩
    intro t
    rfl
  · rw [if_neg hso] at h
    obtain ⟨ti, de, dd, pr, ca, st⟩ := p
    cases ti <;> cases de <;> cases dd <;> cases pr <;> cases ca <;>
      simp only [Option.some.injEq, reduceCtorEq] at h
    refine ⟨_, ?_, h.symm⟩
    intro t
    rfl

/-- Claim C4 (amended): when no task with the given id owned by the caller
exists, the update routes and the hard delete leave the store unchanged but
answer success (the constant success marker); no `NotFoundError` is ever reported. -/
theorem C4_missing_id_noop (db : List Task) (u id : Nat) (p : UpdatePayload)
    (hnone : ∀ t ∈ db, ¬(t.id = id ∧ t.user_id = u)) :
    (∀ db', update_task db u id p = some db' → db' = db)
    ∧ hard_delete_single_task db u id = db
    ∧ (statusOnly p = true → update_task db u id p = some db) := by
  have hcond : ∀ t ∈ db, (t.id == id && t.user_id == u) = false := by
    intro t ht
    by_cases h1 : t.id = id
    · by_cases h2 : t.user_id = u
      · exact absurd ⟨h1, h2⟩ (hnone t ht)
      · simp [h2]
    · simp [h1]
  refine ⟨?_, ?_, ?_⟩
  · intro db' h
    obtain ⟨g, -, rfl⟩ := update_task_some h
    exact map_match_noop g db u id hcond
  · unfold hard_delete_single_task
    rw [List.filter_eq_self]
    intro t ht
    simp [hcond t ht]
  · intro hso
    unfold update_task
    rw [if_pos hso]
    rw [show applyStatus (p.status.getD "") u id db = db from
      map_match_noop _ db u id hcond]

/-- Witness for C4: deleting an id absent from the demo store leaves it
unchanged (and answers success). -/
theorem C4_missing_id_noop_witness :
    hard_delete_single_task demoDb 1 99 = demoDb :=
  (C4_missing_id_noop demoDb 1 99 (setStatusPayload "completed") (by decide)).2.1

/-- Claim C4 (counterexample): on the empty store — where no task can match —
the status-only update, the full update and the hard delete all answer
success with the store unchanged, instead of failing with `NotFoundError`. -/
theorem C4_counterexample :
    update_task [] 1 5 (setStatusPayload "completed") = some []
    ∧ update_task [] 1 5 fullUpdatePayload = some []
    ∧ hard_delete_single_task [] 1 5 = [] := ⟨rfl, rfl, rfl⟩

/-- Claim C5 (amended): Create fails with the HTTP 400 validation error
(`"Données invalides"`) exactly when the payload has no `title` key; any
present title — the empty string included — is accepted and the row
inserted. -/
theorem C5_title_validation (db : List Task) (nextId now u : Nat) (p : CreatePayload) :
    (create_task db nextId now u p = .error "Données invalides" ↔ p.title = none)
    ∧ (∀ s, p.title = some s →
        create_task db nextId now u p = .ok (db ++ [createdRow nextId now u p s])) := by
  constructor
  · rcases hp : p.title with _ | s <;> simp [create_task, hp]
  · intro s hs
    simp [create_task, hs, createdRow]

/-- Witness for C5: the payload without a `title` key is rejected with the
validation error. -/
theorem C5_title_validation_witness :
    create_task [] 7 10 1 noTitlePayload = .error "Données invalides" :=
  (C5_title_validation [] 7 10 1 noTitlePayload).1.mpr rfl

/-- Claim C5 (counterexample): a payload whose title is present but equal to
the empty string is accepted — the row is inserted with `title = ""` —
instead of failing with `ValidationError`. -/
theorem C5_counterexample :
    create_task [] 7 10 1 emptyTitlePayload = .ok [storedEmptyTitleRow]
    ∧ storedEmptyTitleRow.title = "" := ⟨rfl, rfl⟩

/-- A status-only body always takes the status branch of `update_task`. -/
theorem update_setStatus (db : List Task) (u id : Nat) (s : String) :
    update_task db u id (setStatusPayload s) = some (applyStatus s u id db) :=
  rfl

/-- Claim C6 (amended): the UI operations realise exactly the claimed state
machine — restore always writes `pending` (never the prior completed state),
soft delete writes `deleted`, toggle swaps `pending` and `completed` and is a
no-op on a deleted task, and these writes keep every status inside
the three-value status vocabulary.  The backend update endpoint itself,
however, accepts any status string (see the counterexample). -/
theorem C6_ui_state_machine (db : List Task) (u id : Nat)
    (hinv : ∀ t ∈ db, t.status = "pending" ∨ t.status = "completed" ∨ t.status = "deleted") :
    restoreTask db u id = applyStatus "pending" u id db
    ∧ deleteTask db u id = applyStatus "deleted" u id db
    ∧ (findTask db u id = none → toggleTask db u id = db)
    ∧ (∀ t, findTask db u id = some t → t.status = "deleted" → toggleTask db u id = db)
    ∧ (∀ t, findTask db u id = some t → t.status = "completed" →
        toggleTask db u id = applyStatus "pending" u id db)
    ∧ (∀ t, findTask db u id = some t → t.status ≠ "deleted" → t.status ≠ "completed" →
        toggleTask db u id = applyStatus "completed" u id db)
    ∧ (∀ s, s = "pending" ∨ s = "completed" ∨ s = "deleted" →
        ∀ t ∈ applyStatus s u id db,
          t.status = "pending" ∨ t.status = "completed" ∨ t.status = "deleted") := by
  refine ⟨rfl, rfl, ?_, ?_, ?_, ?_, ?_⟩
  · intro hfind
    simp [toggleTask, hfind]
  · intro t hfind hdel
    simp [toggleTask, hfind, hdel]
  · intro t hfind hcomp
    simp [toggleTask, hfind, hcomp, update_setStatus]
  · intro t hfind hdel hcomp
    simp [toggleTask, hfind, hdel, hcomp, update_setStatus]
  · intro s hsenum t ht
    simp only [applyStatus, List.mem_map] at ht
    obtain ⟨t0, ht0, rfl⟩ := ht
    by_cases hc : (t0.id == id && t0.user_id == u) = true
    · rw [if_pos hc]
      exact hsenum
    · rw [if_neg hc]
      exact hinv t0 ht0

/-- Witness for C6: restoring the demo deleted task writes `pending`. -/
theorem C6_ui_state_machine_witness :
    restoreTask [demoDeleted] 1 3 = applyStatus "pending" 1 3 [demoDeleted] :=
  (C6_ui_state_machine [demoDeleted] 1 3 (by decide)).1

/-- Claim C6 (counterexample): the update endpoint stores any status string —
it moves a deleted task directly to `completed`, and stores the
out-of-vocabulary status `wip`; the claimed transition system is not enforced
by the backend. -/
theorem C6_counterexample :
    update_task [demoDeleted] 1 3 (setStatusPayload "completed") =
      some [⟨3, "d", "", some 20260301, "standard", "sport", "completed", 7, 1⟩]
    ∧ update_task [demoDeleted] 1 3 (setStatusPayload "wip") =
      some [⟨3, "d", "", some 20260301, "standard", "sport", "wip", 7, 1⟩] := by
  constructor <;> decide

/-- Kept rows plus dropped rows partition the store. -/
theorem length_filter_not_add (p : Task → Bool) (db : List Task) :
    (db.filter fun t => !(p t)).length + (db.filter p).length = db.length := by
  induction db with
  | nil => rfl
  | cons t ts ih =>
      by_cases h : p t = true <;> simp [List.filter_cons, h] <;> omega

/-- Claim C7 (amended): EmptyTrash removes exactly the soft-deleted
rows — all of them and nothing else — and never fails, but it answers the
constant the constant success marker: it does not return the number of purged rows. -/
theorem C7_empty_trash (db : List Task) (u : Nat) :
    (∀ t, t ∈ clear_trash db u ↔ t ∈ db ∧ ¬(t.status = "deleted" ∧ t.user_id = u))
    ∧ (clear_trash db u).length + trashCount db u = db.length
    ∧ clear_trash_response db u = [("success", true)] := by
  refine ⟨?_, ?_, rfl⟩
  · intro t
    simp only [clear_trash, List.mem_filter, Bool.not_eq_eq_eq_not, Bool.not_true,
      Bool.and_eq_false_imp, beq_eq_false_iff_ne, ne_eq, beq_iff_eq]
    tauto
  · exact length_filter_not_add _ db

/-- Witness for C7 at the demo store. -/
theorem C7_empty_trash_witness :
    (clear_trash demoDb 1).length + trashCount demoDb 1 = demoDb.length :=
  (C7_empty_trash demoDb 1).2.1

/-- Claim C7 (counterexample): the response of the route is the constant
the constant success marker — purging one row and purging zero rows produce identical
responses, so the response cannot be the count of purged rows. -/
theorem C7_counterexample :
    clear_trash_response [demoDeleted] 1 = clear_trash_response [] 1
    ∧ trashCount [demoDeleted] 1 = 1
    ∧ trashCount [] 1 = 0
    ∧ clear_trash [demoDeleted] 1 = [] := by
  refine ⟨rfl, by decide, rfl, by decide⟩

/-- Filtering by a predicate that keeps every row of account `y` leaves the
rows of the account unchanged. -/
theorem ownedBy_filter (q : Task → Bool) (db : List Task) (y : Nat)
    (h : ∀ t : Task, t.user_id = y → q t = true) :
    ownedBy (db.filter q) y = ownedBy db y := by
  unfold ownedBy
  rw [List.filter_filter]
  apply List.filter_congr
  intro t _
  by_cases hy : t.user_id = y
  · simp [hy, h t hy]
  · simp [hy]

/-- Mapping by a per-row function that fixes the rows of account `y` and never
changes the owner column leaves the rows of the account unchanged. -/
theorem ownedBy_map (f : Task → Task) (db : List Task) (y : Nat)
    (hfix : ∀ t : Task, t.user_id = y → f t = t)
    (hid : ∀ t : Task, (f t).user_id = t.user_id) :
    ownedBy (db.map f) y = ownedBy db y := by
  induction db with
  | nil => rfl
  | cons t ts ih =>
      unfold ownedBy at ih ⊢
      simp only [List.map_cons, List.filter_cons]
      by_cases hy : t.user_id = y
      · rw [hfix t hy]
        simp [hy, ih]
      · have hfy : ((f t).user_id == y) = false := by
          simp [hid t, hy]
        have hty : (t.user_id == y) = false := by simp [hy]
        rw [hfy, hty]
        simpa using ih

/-- Claim C9: cross-account isolation — a listing for account x never shows a
task of another account y, and every mutating route invoked by x (update in
both of its forms, hard delete, empty trash, create) leaves the rows of y exactly
as they were, even when the same task id value exists under both accounts. -/
theorem C9_isolation (db : List Task) (x y : Nat) (hxy : y ≠ x)
    (sf cf pf : String) (id nextId now : Nat) (p : UpdatePayload) (cp : CreatePayload) :
    (∀ t ∈ get_tasks db x sf cf pf, t.user_id ≠ y)
    ∧ ownedBy (hard_delete_single_task db x id) y = ownedBy db y
    ∧ ownedBy (clear_trash db x) y = ownedBy db y
    ∧ (∀ db', update_task db x id p = some db' → ownedBy db' y = ownedBy db y)
    ∧ (∀ db', create_task db nextId now x cp = .ok db' → ownedBy db' y = ownedBy db y) := by
  have hxyb : ∀ t : Task, t.user_id = y → (t.user_id == x) = false := by
    intro t hty
    rw [hty]
    simpa using hxy
  refine ⟨?_, ?_, ?_, ?_, ?_⟩
  · intro t ht
    rw [mem_get_tasks, rowMatches_iff] at ht
    obtain ⟨-, hux, -⟩ := ht
    rw [hux]
    exact Ne.symm hxy
  · apply ownedBy_filter
    intro t hty
    simp [hxyb t hty]
  · apply ownedBy_filter
    intro t hty
    simp [hxyb t hty]
  · intro db' h
    obtain ⟨g, hg, rfl⟩ := update_task_some h
    apply ownedBy_map
    · intro t hty
      have hc : (t.id == id && t.user_id == x) = false := by simp [hxyb t hty]
      simp [hc]
    · intro t
      by_cases hc : (t.id == id && t.user_id == x) = true
      · rw [if_pos hc]
        exact hg t
      · rw [if_neg hc]
  · intro db' h
    rcases hp : cp.title with _ | s
    · simp [create_task, hp] at h
    · simp only [create_task, hp] at h
      have hdb : db ++ [createdRow nextId now x cp s] = db' := by
        simpa [createdRow] using h
      subst hdb
      unfold ownedBy
      rw [List.filter_append]
      have hnew : List.filter (fun t => t.user_id == y) [createdRow nextId now x cp s] = [] := by
        have : (x == y) = false := by simpa using Ne.symm hxy
        simp [createdRow, this]
      rw [hnew, List.append_nil]

/-- Witness for C9: emptying the trash of account 1 leaves the rows of account 2 in the
demo store untouched. -/
theorem C9_isolation_witness :
    ownedBy (clear_trash demoDb 1) 2 = ownedBy demoDb 2 :=
  (C9_isolation demoDb 1 2 (by decide) "all" "all" "all" 1 9 9
    (setStatusPayload "deleted") noTitlePayload).2.2.1

end Tacheo
